import Mathlib

/-!
Verification of the water-quality evaluator core from `src/app.py`:
the `classify` tier function, the WQI scorer, the rolling history
window (`[-10:]` truncation), and the unsafe-alert log. Real-valued
sensor readings are modelled as rationals; the Python `int()` conversion
(truncation toward zero) is modelled by `pyInt`.
-/

/-- One sensor sample: pH, turbidity (NTU) and TDS (ppm), as produced
each cycle by the sliders or the random simulator in `app.py`. -/
structure Reading where
  ph : ℚ
  turbidity : ℚ
  tds : ℚ
deriving DecidableEq, Repr

/-- The function `classify` from `app.py` (lines 79-85): three bands evaluated in
order, first match wins; returns the status string. -/
def classify (ph turb tds : ℚ) : String :=
  if 6.5 ≤ ph ∧ ph ≤ 8.5 ∧ turb < 3 ∧ tds ≤ 600 then "Safe"
  else if turb ≤ 5 ∧ tds ≤ 900 then "Moderate"
  else "Unsafe"

/-- The Python `int()` conversion applied to a real value: truncation toward zero. -/
def pyInt (q : ℚ) : ℤ :=
  if 0 ≤ q then ⌊q⌋ else ⌈q⌉

/-- The WQI computation from `app.py` (lines 90-92):
`max(0, min(100, int(100 - (abs(7 - ph) * 10 + turbidity * 8 + (tds / 50)))))`. -/
def wqi (ph turbidity tds : ℚ) : ℤ :=
  max 0 (min 100 (pyInt (100 - (|7 - ph| * 10 + turbidity * 8 + tds / 50))))

/-- The three per-metric rolling histories kept in session state. -/
structure HistoryWindow where
  ph_history : List ℚ
  turb_history : List ℚ
  tds_history : List ℚ
deriving DecidableEq, Repr

/-- Session start: all three histories empty (`app.py` lines 15-19). -/
def emptyWindow : HistoryWindow := ⟨[], [], []⟩

/-- The Python `xs[-10:]` slice, generalised: the last `n` elements of a
list (the whole list when it is shorter than `n`). -/
def lastN (n : ℕ) (l : List α) : List α :=
  (l.reverse.take n).reverse

/-- One cycle of the history-store block (`app.py` lines 70-76): append
each component, then truncate each sequence with `[-10:]`. -/
def append_reading (w : HistoryWindow) (r : Reading) : HistoryWindow :=
  { ph_history := lastN 10 (w.ph_history ++ [r.ph])
    turb_history := lastN 10 (w.turb_history ++ [r.turbidity])
    tds_history := lastN 10 (w.tds_history ++ [r.tds]) }

/-- One row of the alert log (`app.py` lines 150-156). -/
structure AlertRecord where
  time : String
  location : String
  ph : ℚ
  turbidity : ℚ
  tds : ℚ
deriving DecidableEq, Repr

/-- The alert-append step in the alerts tab (`app.py` lines 148-156):
append one record iff the current status is the unsafe tier. -/
def maybe_log_alert (log : List AlertRecord) (tier : String) (r : Reading)
    (location now : String) : List AlertRecord :=
  if tier = "Unsafe" then
    log ++ [{ time := now, location := location, ph := r.ph,
              turbidity := r.turbidity, tds := r.tds }]
  else log

/-! ### Helper lemmas -/

/-- Taking `n` from the front is unaffected by pre-truncating the second
summand to its first `n` elements. -/
theorem take_append_take (n : ℕ) (a b : List α) :
    (a ++ b.take n).take n = (a ++ b).take n := by
  rw [List.take_append_eq_append_take, List.take_append_eq_append_take, List.take_take]
  congr 1
  exact List.take_eq_take.mpr (by omega)

/-- The last `n` elements of a concatenation only depend on the last `n`
elements of the left part. -/
theorem lastN_append_lastN (n : ℕ) (a b : List α) :
    lastN n (lastN n a ++ b) = lastN n (a ++ b) := by
  unfold lastN
  rw [List.reverse_append, List.reverse_reverse, take_append_take, ← List.reverse_append]

/-- Truncation to the last `n` elements yields at most `n` elements. -/
theorem lastN_length_le (n : ℕ) (l : List α) : (lastN n l).length ≤ n := by
  simp [lastN]

/-- Truncation is the identity on lists that already fit the window. -/
theorem lastN_of_length_le {n : ℕ} {l : List α} (h : l.length ≤ n) : lastN n l = l := by
  unfold lastN
  rw [List.take_of_length_le (by simpa), List.reverse_reverse]

/-- The last `n` elements are what remains after dropping all earlier
ones: the `[-n:]` slice drops from the front, oldest first. -/
theorem lastN_eq_drop (n : ℕ) (l : List α) : lastN n l = l.drop (l.length - n) := by
  unfold lastN
  rw [List.reverse_take, List.reverse_reverse, List.length_reverse]

/-- Folding `append_reading` over a reading list: each history ends up
as the last-10 truncation of the old history extended by the
components of the readings, provided the starting histories fit the window. -/
theorem foldl_append_reading (rs : List Reading) (w : HistoryWindow)
    (hp : w.ph_history.length ≤ 10) (ht : w.turb_history.length ≤ 10)
    (hd : w.tds_history.length ≤ 10) :
    rs.foldl append_reading w =
      ⟨lastN 10 (w.ph_history ++ rs.map Reading.ph),
       lastN 10 (w.turb_history ++ rs.map Reading.turbidity),
       lastN 10 (w.tds_history ++ rs.map Reading.tds)⟩ := by
  induction rs generalizing w with
  | nil =>
      cases w
      simp_all [lastN_of_length_le]
  | cons r rs ih =>
      rw [List.foldl_cons,
        ih (append_reading w r) (lastN_length_le _ _) (lastN_length_le _ _) (lastN_length_le _ _)]
      simp only [append_reading, List.map_cons]
      rw [lastN_append_lastN, lastN_append_lastN, lastN_append_lastN]
      simp

/-- The Python `int()` conversion is monotone: truncation toward zero
preserves order. -/
theorem pyInt_mono {q r : ℚ} (h : q ≤ r) : pyInt q ≤ pyInt r := by
  unfold pyInt
  split_ifs with hq hr hr
  · exact Int.floor_le_floor h
  · exact absurd (hq.trans h) hr
  · push_neg at hq
    exact (Int.ceil_le.mpr (by exact_mod_cast hq.le)).trans (Int.floor_nonneg.mpr hr)
  · exact Int.ceil_le_ceil h

/-- Core monotonicity of the scorer: a pH farther from neutral, more
turbidity, and more TDS can only lower the WQI. -/
theorem wqi_le_wqi {ph1 ph2 t1 t2 d1 d2 : ℚ} (hph : |7 - ph1| ≤ |7 - ph2|)
    (ht : t1 ≤ t2) (hd : d1 ≤ d2) : wqi ph2 t2 d2 ≤ wqi ph1 t1 d1 := by
  unfold wqi
  have hraw : 100 - (|7 - ph2| * 10 + t2 * 8 + d2 / 50) ≤
      100 - (|7 - ph1| * 10 + t1 * 8 + d1 / 50) := by
    have h1 : |7 - ph1| * 10 ≤ |7 - ph2| * 10 := by linarith
    have h2 : t1 * 8 ≤ t2 * 8 := by linarith
    have h3 : d1 / 50 ≤ d2 / 50 := by linarith
    linarith
  have := pyInt_mono hraw
  omega

/-! ### Claim theorems -/

/-- Claim C1: `classify` evaluates its bands in order with first match
winning: it answers Safe exactly on the Safe band, Moderate exactly on
the Moderate band minus the Safe band, and Unsafe exactly off both. -/
theorem classify_cases (ph turb tds : ℚ) :
    (classify ph turb tds = "Safe" ↔ 6.5 ≤ ph ∧ ph ≤ 8.5 ∧ turb < 3 ∧ tds ≤ 600) ∧
    (classify ph turb tds = "Moderate" ↔
      ¬(6.5 ≤ ph ∧ ph ≤ 8.5 ∧ turb < 3 ∧ tds ≤ 600) ∧ (turb ≤ 5 ∧ tds ≤ 900)) ∧
    (classify ph turb tds = "Unsafe" ↔
      ¬(6.5 ≤ ph ∧ ph ≤ 8.5 ∧ turb < 3 ∧ tds ≤ 600) ∧ ¬(turb ≤ 5 ∧ tds ≤ 900)) := by
  unfold classify
  split_ifs with h1 h2 <;> simp_all

/-- Claim C2: the WQI equals the spec formula
`clamp(floor(100 - (|7 - ph| * 10 + turbidity * 8 + tds / 50)), 0, 100)`;
the truncation toward zero in the code agrees with floor after clamping. -/
theorem wqi_eq_clamp_floor (ph turb tds : ℚ) :
    wqi ph turb tds =
      max 0 (min 100 ⌊100 - (|7 - ph| * 10 + turb * 8 + tds / 50)⌋) := by
  unfold wqi pyInt
  set q : ℚ := 100 - (|7 - ph| * 10 + turb * 8 + tds / 50) with hq
  split_ifs with h
  · rfl
  · push_neg at h
    have hc : ⌈q⌉ ≤ 0 := Int.ceil_le.mpr (by exact_mod_cast h.le)
    have hf : ⌊q⌋ ≤ 0 := Int.floor_nonpos h.le
    omega

/-- Claim C3: an Unsafe tier appends exactly one record with the given
fields to the end of the log, Safe and Moderate tiers leave the log
unchanged, and three consecutive Unsafe calls append exactly three
records in call order with no deduplication. -/
theorem maybe_log_alert_spec (log : List AlertRecord) (r r2 r3 : Reading)
    (loc loc2 loc3 now now2 now3 : String) :
    (maybe_log_alert log ("Unsafe") r loc now =
      log ++ [⟨now, loc, r.ph, r.turbidity, r.tds⟩]) ∧
    (maybe_log_alert log ("Safe") r loc now = log) ∧
    (maybe_log_alert log ("Moderate") r loc now = log) ∧
    (maybe_log_alert
        (maybe_log_alert (maybe_log_alert log ("Unsafe") r loc now) ("Unsafe") r2 loc2 now2)
        ("Unsafe") r3 loc3 now3 =
      log ++ [⟨now, loc, r.ph, r.turbidity, r.tds⟩,
              ⟨now2, loc2, r2.ph, r2.turbidity, r2.tds⟩,
              ⟨now3, loc3, r3.ph, r3.turbidity, r3.tds⟩]) := by
  simp [maybe_log_alert]

/-- Claim C4: `append_reading` pushes each component and truncates each
sequence to its last 10 elements dropping the oldest first, so 15
readings into an empty window leave each sequence at length exactly 10
holding the components of readings 6 through 15 in order. -/
theorem history_window_15 (rs : List Reading) (h : rs.length = 15) :
    ((rs.foldl append_reading emptyWindow).ph_history.length = 10 ∧
      (rs.foldl append_reading emptyWindow).turb_history.length = 10 ∧
      (rs.foldl append_reading emptyWindow).tds_history.length = 10) ∧
    (rs.foldl append_reading emptyWindow).ph_history = (rs.map Reading.ph).drop 5 ∧
    (rs.foldl append_reading emptyWindow).turb_history = (rs.map Reading.turbidity).drop 5 ∧
    (rs.foldl append_reading emptyWindow).tds_history = (rs.map Reading.tds).drop 5 := by
  rw [foldl_append_reading rs emptyWindow (by simp [emptyWindow]) (by simp [emptyWindow])
    (by simp [emptyWindow])]
  simp only [emptyWindow, List.nil_append, lastN_eq_drop, List.length_map, h,
    List.length_drop]
  simp

/-- Witness for C4: fifteen concrete readings leave windows of length
10 holding readings 6 through 15. -/
theorem history_window_15_witness :
    (let rs : List Reading :=
      [⟨1, 1, 1⟩, ⟨2, 2, 2⟩, ⟨3, 3, 3⟩, ⟨4, 4, 4⟩, ⟨5, 5, 5⟩, ⟨6, 6, 6⟩, ⟨7, 7, 7⟩,
       ⟨8, 8, 8⟩, ⟨9, 9, 9⟩, ⟨10, 10, 10⟩, ⟨11, 11, 11⟩, ⟨12, 12, 12⟩, ⟨13, 13, 13⟩,
       ⟨14, 14, 14⟩, ⟨15, 15, 15⟩];
    ((rs.foldl append_reading emptyWindow).ph_history.length = 10 ∧
      (rs.foldl append_reading emptyWindow).turb_history.length = 10 ∧
      (rs.foldl append_reading emptyWindow).tds_history.length = 10) ∧
    (rs.foldl append_reading emptyWindow).ph_history = (rs.map Reading.ph).drop 5 ∧
    (rs.foldl append_reading emptyWindow).turb_history = (rs.map Reading.turbidity).drop 5 ∧
    (rs.foldl append_reading emptyWindow).tds_history = (rs.map Reading.tds).drop 5) :=
  history_window_15 _ rfl

/-- Claim C5: at the boundary `turbidity = 3`, a reading that otherwise
qualifies as Safe is classified Moderate, because the Safe band uses a
strict comparison on turbidity. -/
theorem classify_turb3_moderate (ph tds : ℚ) (h1 : 6.5 ≤ ph) (h2 : ph ≤ 8.5)
    (h3 : tds ≤ 600) : classify ph 3 tds = "Moderate" := by
  unfold classify
  rw [if_neg (by simp), if_pos (by norm_num; linarith)]

/-- Witness for C5: a concrete Safe-qualifying reading with turbidity 3
is Moderate. -/
theorem classify_turb3_moderate_witness : classify 7 3 350 = "Moderate" :=
  classify_turb3_moderate 7 350 (by with_unfolding_all decide)
    (by with_unfolding_all decide) (by with_unfolding_all decide)

/-- Claim C6: any reading with turbidity above 5 or TDS above 900 is
classified Unsafe. -/
theorem classify_of_exceed (ph turb tds : ℚ) (h : 5 < turb ∨ 900 < tds) :
    classify ph turb tds = "Unsafe" := by
  unfold classify
  rw [if_neg, if_neg]
  · rcases h with h | h
    · exact fun hc => absurd hc.1 (by linarith)
    · exact fun hc => absurd hc.2 (by linarith)
  · rcases h with h | h
    · exact fun hc => absurd hc.2.2.1 (by linarith)
    · exact fun hc => absurd hc.2.2.2 (by linarith)

/-- Witness for C6: turbidity 6 alone forces Unsafe. -/
theorem classify_exceed_witness : classify 7 6 100 = "Unsafe" :=
  classify_of_exceed 7 6 100 (Or.inl (by with_unfolding_all decide))

/-- Claim C7: holding the other two inputs fixed, the WQI is
non-increasing in the pH deviation `|7 - ph|`, in turbidity, and in
TDS. -/
theorem wqi_monotone :
    (∀ ph1 ph2 turb tds : ℚ, |7 - ph1| ≤ |7 - ph2| →
      wqi ph2 turb tds ≤ wqi ph1 turb tds) ∧
    (∀ ph turb1 turb2 tds : ℚ, turb1 ≤ turb2 →
      wqi ph turb2 tds ≤ wqi ph turb1 tds) ∧
    (∀ ph turb tds1 tds2 : ℚ, tds1 ≤ tds2 →
      wqi ph turb tds2 ≤ wqi ph turb tds1) :=
  ⟨fun _ _ _ _ h => wqi_le_wqi h le_rfl le_rfl,
   fun _ _ _ _ h => wqi_le_wqi le_rfl h le_rfl,
   fun _ _ _ _ h => wqi_le_wqi le_rfl le_rfl h⟩

/-- Witness for C7: concrete one-variable comparisons in each
argument. -/
theorem wqi_monotone_witness :
    wqi 8 2 300 ≤ wqi 7 2 300 ∧ wqi 7 3 300 ≤ wqi 7 2 300 ∧
      wqi 7 2 400 ≤ wqi 7 2 300 :=
  ⟨wqi_monotone.1 7 8 2 300 (by with_unfolding_all decide),
   wqi_monotone.2.1 7 2 3 300 (by with_unfolding_all decide),
   wqi_monotone.2.2 7 2 300 400 (by with_unfolding_all decide)⟩

/-- Claim C8: a neutral reading scores exactly 100, and for nonnegative
turbidity and TDS the WQI always lies in the interval from 0 to 100. -/
theorem wqi_bounds :
    wqi 7 0 0 = 100 ∧
    ∀ ph turb tds : ℚ, 0 ≤ turb → 0 ≤ tds →
      0 ≤ wqi ph turb tds ∧ wqi ph turb tds ≤ 100 := by
  refine ⟨by with_unfolding_all decide, fun ph turb tds _ _ => ⟨le_max_left _ _, ?_⟩⟩
  unfold wqi
  have : min 100 (pyInt (100 - (|7 - ph| * 10 + turb * 8 + tds / 50))) ≤ 100 :=
    min_le_left _ _
  omega

/-- Witness for C8: the clamp bounds at a concrete extreme reading. -/
theorem wqi_bounds_witness : 0 ≤ wqi 0 5 700 ∧ wqi 0 5 700 ≤ 100 :=
  wqi_bounds.2 0 5 700 (by with_unfolding_all decide) (by with_unfolding_all decide)

/-- Claim C9: the two end-to-end examples: reading (4, 9, 1000) is
Unsafe with score 0, and reading (7.2, 2, 350) is Safe with score 75. -/
theorem end_to_end_examples :
    (classify 4 9 1000 = "Unsafe" ∧ wqi 4 9 1000 = 0) ∧
    (classify 7.2 2 350 = "Safe" ∧ wqi 7.2 2 350 = 75) := by
  with_unfolding_all decide

/-- Claim C10: pH alone can never make a reading Unsafe: `classify`
answers Unsafe exactly when turbidity exceeds 5 or TDS exceeds 900,
independent of pH. -/
theorem classify_ph_independent (ph turb tds : ℚ) :
    classify ph turb tds = "Unsafe" ↔ 5 < turb ∨ 900 < tds := by
  unfold classify
  split_ifs with h1 h2
  · simp only [show ("Safe" : String) ≠ "Unsafe" by decide, false_iff]
    push_neg
    exact ⟨by linarith [h1.2.2.1], by linarith [h1.2.2.2]⟩
  · simp only [show ("Moderate" : String) ≠ "Unsafe" by decide, false_iff]
    push_neg
    exact h2
  · simp only [true_iff]
    push_neg at h2
    rcases le_or_lt turb 5 with hle | hlt
    · exact Or.inr (h2 hle)
    · exact Or.inl hlt
